import Mathlib

set_option linter.unusedVariables false

/-!
Verification development for the realistic-task-timer application.

The application has two relevant parts:
* an estimation service (`calculateRealTime` in the OpenAI wrapper module):
  it asks an external text-completion API for a realistic duration, parses
  the response as JSON and falls back to `Math.ceil(estimatedTime * 1.2)`
  with a canned explanation on any failure;
* a task-list / timer controller (the `TaskInputScreen` component): it owns
  the task list, an optional active task, an optional interval handle, and
  the handlers `handleAddTask`, `handleDeleteTask`, `startTimer`,
  `pauseTimer`, `resetTimer`, plus the one-second interval callback.

Both are embedded shallowly below.  JavaScript truthiness, the `||` default
operator, `JSON.parse` outcomes, `parseInt`, `trim`, and the set of live
`setInterval` handles are modelled explicitly.  JavaScript numbers are
modelled as exact rationals (the estimation service) and integers (the
timer arithmetic); all inputs of interest are small integers, so no
floating-point rounding is relevant to any statement proved here.
-/

namespace RTT

/-! ## JSON values and JavaScript truthiness

`JSON.parse` of the collaborator's response text either throws (modelled as
`none` at the `ApiResponse` level) or yields a JSON value.  Reading a
property of a parsed value yields `undefined` for non-objects and for
missing keys; reading a property of `null` throws a `TypeError`, which the
source routes to the same catch block as a parse failure. -/

inductive Json where
  | null
  | bool (b : Bool)
  | num (q : ℚ)
  | str (s : String)
  | arr (elems : List Json)
  | obj (fields : List (String × Json))

/-- Value of a JavaScript property read: either `undefined` or a JSON value. -/
inductive JsValue where
  | undefined
  | fromJson (j : Json)

/-- JavaScript truthiness of a JSON value. -/
def Json.truthy : Json → Bool
  | .null => false
  | .bool b => b
  | .num q => decide (q ≠ 0)
  | .str s => decide (s ≠ "")
  | .arr _ => true
  | .obj _ => true

/-- JavaScript truthiness of a property-read result. -/
def JsValue.truthy : JsValue → Bool
  | .undefined => false
  | .fromJson j => j.truthy

/-- Property read `j.k` on a parsed JSON value that is not `null`
(the `null` case throws in JavaScript and is handled separately by the
caller's catch block). Non-objects and missing keys give `undefined`. -/
def Json.getProp : Json → String → JsValue
  | .obj fields, k =>
    match fields.lookup k with
    | some v => .fromJson v
    | none => .undefined
  | _, _ => .undefined

/-- JavaScript `a || b`: `a` when truthy, else `b`. -/
def jsOr (a b : JsValue) : JsValue :=
  if a.truthy then a else b

/-! ## Estimation service (`calculateRealTime`) -/

/-- Outcome of the external text-completion call, abstracted at the level
the source observes it: either the call throws (network error, non-success
response, exception), or it returns and `JSON.parse(content || "")` of the
message content either throws (`ok none`) or yields a JSON value
(`ok (some j)`). -/
inductive ApiResponse where
  | apiError
  | ok (parsed : Option Json)

/-- Embedding of `Math.ceil(n * 1.2)` for an integer `n`: the exact
rational ceiling, computed with integer division (`ceil12_eq` below links
it to the mathematical ceiling). -/
def ceil12 (n : ℤ) : ℤ := (6 * n + 4) / 5

/-- Result record of `calculateRealTime`.  The source annotates both
fields with static types, but the values actually returned come from
untyped `JSON.parse` output guarded only by truthiness, so both fields
range over arbitrary JavaScript values. -/
structure TimeCalculationResult where
  realTime : JsValue
  explanation : JsValue

/-- Explanation string used both when `JSON.parse` throws and as the
per-field default for a missing or falsy `explanation` field. -/
def overheadDisclaimer : String :=
  "予期せぬ中断や作業が発生する可能性を考慮して、余裕を持った時間を設定しました。"

/-- Explanation string returned when the external call itself fails. -/
def apiErrorExplanation : String :=
  "APIエラーが発生したため、基本の20%増しで計算しました。"

/-- Key of the numeric field of the expected response shape. -/
def fieldRealTime : String := "realTime"

/-- Key of the textual field of the expected response shape. -/
def fieldExplanation : String := "explanation"

/-- Embedding of `calculateRealTime(taskName, estimatedTime)` as a function
of the response of the external collaborator.  The source wraps the call in
an outer try/catch (API failure → 20%-buffer fallback with the API-error
explanation) and the parse in an inner try/catch (parse failure → the same
numeric fallback with the overhead disclaimer); on a successful parse each
field is defaulted independently through `||`.  A parsed `null` throws on
property access inside the inner try and therefore lands in the
parse-failure branch.  The function is total: no branch raises to the
caller.  `taskName` only appears in the outgoing prompt and does not affect
the result. -/
def calculateRealTime (taskName : String) (estimatedTime : ℤ)
    (resp : ApiResponse) : TimeCalculationResult :=
  match resp with
  | .apiError =>
    { realTime := .fromJson (.num ((ceil12 estimatedTime : ℤ) : ℚ)),
      explanation := .fromJson (.str apiErrorExplanation) }
  | .ok none =>
    { realTime := .fromJson (.num ((ceil12 estimatedTime : ℤ) : ℚ)),
      explanation := .fromJson (.str overheadDisclaimer) }
  | .ok (some .null) =>
    { realTime := .fromJson (.num ((ceil12 estimatedTime : ℤ) : ℚ)),
      explanation := .fromJson (.str overheadDisclaimer) }
  | .ok (some j) =>
    { realTime :=
        jsOr (j.getProp fieldRealTime)
          (.fromJson (.num ((ceil12 estimatedTime : ℤ) : ℚ))),
      explanation :=
        jsOr (j.getProp fieldExplanation)
          (.fromJson (.str overheadDisclaimer)) }

/-- The integer-division embedding of `Math.ceil(n * 1.2)` agrees with the
mathematical ceiling of `n * 1.2` for every integer `n`. -/
theorem ceil12_eq (n : ℤ) : ceil12 n = Int.ceil ((n : ℚ) * 1.2) := by
  have h12 : (1.2 : ℚ) = 6 / 5 := by norm_num
  have hdm : 5 * ((6 * n + 4) / 5) + (6 * n + 4) % 5 = 6 * n + 4 :=
    Int.ediv_add_emod _ _
  have hr1 : 0 ≤ (6 * n + 4) % 5 := Int.emod_nonneg _ (by decide)
  have hr2 : (6 * n + 4) % 5 < 5 := Int.emod_lt_of_pos _ (by decide)
  unfold ceil12
  symm
  rw [Int.ceil_eq_iff]
  constructor
  · rw [h12]
    have h6 : (6 : ℚ) * n ≥ 5 * ((6 * n + 4) / 5 : ℤ) - 4 := by
      exact_mod_cast by omega
    linarith
  · rw [h12]
    have h6 : (6 : ℚ) * n ≤ 5 * ((6 * n + 4) / 5 : ℤ) := by
      exact_mod_cast by omega
    linarith

/-- The fallback estimate is positive for positive input. -/
theorem ceil12_pos (n : ℤ) (h : 0 < n) : 0 < ceil12 n := by
  unfold ceil12
  omega

/-- On a successfully parsed non-null value, the returned `realTime` is the
`||`-default of the `realTime` property. -/
theorem calculateRealTime_ok_realTime (name : String) (est : ℤ) (j : Json)
    (hj : j ≠ Json.null) :
    (calculateRealTime name est (ApiResponse.ok (some j))).realTime
      = jsOr (j.getProp fieldRealTime)
          (.fromJson (.num ((ceil12 est : ℤ) : ℚ))) := by
  cases j <;> simp_all [calculateRealTime]

/-- On a successfully parsed non-null value, the returned `explanation` is
the `||`-default of the `explanation` property. -/
theorem calculateRealTime_ok_explanation (name : String) (est : ℤ) (j : Json)
    (hj : j ≠ Json.null) :
    (calculateRealTime name est (ApiResponse.ok (some j))).explanation
      = jsOr (j.getProp fieldExplanation)
          (.fromJson (.str overheadDisclaimer)) := by
  cases j <;> simp_all [calculateRealTime]

/-- Non-empty task name used by concrete witnesses. -/
def demoName : String := "a"

/-- Explanation text used by concrete witnesses. -/
def demoText : String := "includes buffer"

/-- A well-shaped collaborator response value. -/
def demoJson : Json :=
  Json.obj [(fieldRealTime, Json.num 90), (fieldExplanation, Json.str demoText)]

/-- A collaborator response whose `realTime` field is a negative number. -/
def negJson : Json :=
  Json.obj [(fieldRealTime, Json.num (-5)), (fieldExplanation, Json.str demoText)]

/-- C1: for every non-empty task name and positive estimate, if the
external text-completion call itself fails, `calculateRealTime` returns
`realMinutes = ceil(estimatedMinutes * 1.2)` together with the fixed
API-error explanation string; the embedding is a total function, so no
error propagates to the caller. -/
theorem calculateRealTime_apiError_fallback (taskName : String) (est : ℤ)
    (hname : taskName ≠ "") (hest : 0 < est) :
    calculateRealTime taskName est ApiResponse.apiError =
      { realTime := JsValue.fromJson (Json.num ((ceil12 est : ℤ) : ℚ)),
        explanation := JsValue.fromJson (Json.str apiErrorExplanation) }
    ∧ ceil12 est = Int.ceil ((est : ℚ) * 1.2) :=
  ⟨rfl, ceil12_eq est⟩

/-- Witness for C1 at task name `"a"` and estimate `3`. -/
theorem calculateRealTime_apiError_fallback_witness :
    calculateRealTime demoName 3 ApiResponse.apiError =
      { realTime := JsValue.fromJson (Json.num ((ceil12 3 : ℤ) : ℚ)),
        explanation := JsValue.fromJson (Json.str apiErrorExplanation) }
    ∧ ceil12 3 = Int.ceil ((3 : ℚ) * 1.2) :=
  calculateRealTime_apiError_fallback demoName 3 (by decide) (by decide)

/-- C2: for every positive estimate, a response whose text fails to decode
yields the numeric fallback with the parse-fallback explanation string;
and on a successful decode each field falls back independently: a truthy
field is passed through unchanged and a missing/falsy field is replaced by
its fallback value (`ceil(estimated * 1.2)` for `realTime`, the overhead
disclaimer for `explanation`). -/
theorem calculateRealTime_parse_and_field_fallbacks (name : String)
    (est : ℤ) (hest : 0 < est) :
    (calculateRealTime name est (ApiResponse.ok none) =
      { realTime := JsValue.fromJson (Json.num ((ceil12 est : ℤ) : ℚ)),
        explanation := JsValue.fromJson (Json.str overheadDisclaimer) })
    ∧ (∀ j : Json,
        ((j.getProp fieldRealTime).truthy = true →
          (calculateRealTime name est (ApiResponse.ok (some j))).realTime
            = j.getProp fieldRealTime)
        ∧ ((j.getProp fieldRealTime).truthy = false →
          (calculateRealTime name est (ApiResponse.ok (some j))).realTime
            = JsValue.fromJson (Json.num ((ceil12 est : ℤ) : ℚ)))
        ∧ ((j.getProp fieldExplanation).truthy = true →
          (calculateRealTime name est (ApiResponse.ok (some j))).explanation
            = j.getProp fieldExplanation)
        ∧ ((j.getProp fieldExplanation).truthy = false →
          (calculateRealTime name est (ApiResponse.ok (some j))).explanation
            = JsValue.fromJson (Json.str overheadDisclaimer)))
    ∧ ceil12 est = Int.ceil ((est : ℚ) * 1.2) := by
  refine ⟨rfl, fun j => ?_, ceil12_eq est⟩
  by_cases hn : j = Json.null
  · subst hn
    refine ⟨fun ht => ?_, fun _ => rfl, fun ht => ?_, fun _ => rfl⟩
    · simp [Json.getProp, JsValue.truthy] at ht
    · simp [Json.getProp, JsValue.truthy] at ht
  · rw [calculateRealTime_ok_realTime name est j hn,
      calculateRealTime_ok_explanation name est j hn]
    refine ⟨fun ht => ?_, fun ht => ?_, fun ht => ?_, fun ht => ?_⟩ <;>
      simp [jsOr, ht]

/-- Witness for C2 at estimate `3` and a well-shaped response. -/
theorem calculateRealTime_parse_and_field_fallbacks_witness :
    (calculateRealTime demoName 3 (ApiResponse.ok none)).explanation
      = JsValue.fromJson (Json.str overheadDisclaimer)
    ∧ (calculateRealTime demoName 3 (ApiResponse.ok (some demoJson))).realTime
      = demoJson.getProp fieldRealTime := by
  have h := calculateRealTime_parse_and_field_fallbacks demoName 3 (by decide)
  exact ⟨by rw [h.1], (h.2.1 demoJson).1 rfl⟩

/-- C9 counterexample: a collaborator response whose `realTime` field is
the truthy number `-5` is passed through unchanged, so the returned
`realMinutes` is negative, refuting the claim that the returned
`realMinutes` is a positive integer for every possible response. -/
theorem calculateRealTime_negative_realTime_cex :
    (calculateRealTime demoName 10 (ApiResponse.ok (some negJson))).realTime
      = JsValue.fromJson (Json.num (-5))
    ∧ ¬ (0 : ℚ) < -5 :=
  ⟨rfl, by norm_num⟩

/-- C9 amended: for every non-empty task name, positive estimate, and
collaborator response, the returned `realTime` is either the fallback
`ceil(estimated * 1.2)` — a positive integer — or the response's truthy
`realTime` property passed through unchanged; in the latter case it is a
positive integer only when that property itself is one. -/
theorem calculateRealTime_realTime_passthrough_or_fallback
    (name : String) (est : ℤ) (hname : name ≠ "") (hest : 0 < est)
    (resp : ApiResponse) :
    ((calculateRealTime name est resp).realTime
        = JsValue.fromJson (Json.num ((ceil12 est : ℤ) : ℚ))
      ∧ 0 < ceil12 est)
    ∨ (∃ j : Json, resp = ApiResponse.ok (some j)
        ∧ (j.getProp fieldRealTime).truthy = true
        ∧ (calculateRealTime name est resp).realTime
            = j.getProp fieldRealTime) := by
  have hp := ceil12_pos est hest
  match resp with
  | .apiError => exact Or.inl ⟨rfl, hp⟩
  | .ok none => exact Or.inl ⟨rfl, hp⟩
  | .ok (some j) =>
    by_cases hn : j = Json.null
    · subst hn
      exact Or.inl ⟨rfl, hp⟩
    · by_cases ht : (j.getProp fieldRealTime).truthy = true
      · exact Or.inr ⟨j, rfl, ht,
          by rw [calculateRealTime_ok_realTime name est j hn]; simp [jsOr, ht]⟩
      · exact Or.inl ⟨
          by rw [calculateRealTime_ok_realTime name est j hn]; simp [jsOr, ht],
          hp⟩

/-- Witness for the amended C9 at task name `"a"`, estimate `3`, and a
failed external call. -/
theorem calculateRealTime_realTime_passthrough_or_fallback_witness :
    ((calculateRealTime demoName 3 ApiResponse.apiError).realTime
        = JsValue.fromJson (Json.num ((ceil12 3 : ℤ) : ℚ))
      ∧ 0 < ceil12 3)
    ∨ (∃ j : Json, ApiResponse.apiError = ApiResponse.ok (some j)
        ∧ (j.getProp fieldRealTime).truthy = true
        ∧ (calculateRealTime demoName 3 ApiResponse.apiError).realTime
            = j.getProp fieldRealTime) :=
  calculateRealTime_realTime_passthrough_or_fallback demoName 3
    (by decide) (by decide) ApiResponse.apiError

/-! ## Task list and timer controller (`TaskInputScreen`)

The component state is the six `useState` cells.  A live `setInterval`
registration is modelled explicitly: it records its handle and the `tasks`
list captured by the interval callback's closure at creation time (the
callback reads `tasks` from the render scope in which `startTimer` ran,
while it reads the active task through a functional `setActiveTask`
updater, i.e. from current state).  Each user-level handler runs at a
fresh render and therefore sees current state.  `Alert` calls and
`saveTasks` writes are returned as a list of observable effects. -/

/-- The `Task` record of the source.  `isRunning`, `isPaused` and
`remainingTime` are optional fields, absent on freshly created tasks. -/
structure Task where
  id : String
  name : String
  estimatedTime : ℤ
  realTime : ℤ
  isRunning : Option Bool := none
  isPaused : Option Bool := none
  remainingTime : Option ℤ := none
deriving DecidableEq

/-- JavaScript truthiness of an optional boolean field. -/
def truthyOpt : Option Bool → Bool
  | some b => b
  | none => false

/-- JavaScript `x || d` for an optional numeric field (`undefined` and `0`
are falsy). -/
def jsOrInt (x : Option ℤ) (d : ℤ) : ℤ :=
  match x with
  | some v => if v = 0 then d else v
  | none => d

/-- A live repeating one-second `setInterval` registration: its handle and
the `tasks` list captured by the callback's closure. -/
structure Interval where
  id : ℕ
  capturedTasks : List Task
deriving DecidableEq

/-- The six `useState` cells of the component. -/
structure ControllerState where
  taskName : String
  estimatedTime : String
  tasks : List Task
  editingTask : Option Task
  activeTask : Option Task
  timer : Option ℕ
deriving DecidableEq

/-- Component state plus the set of live interval registrations and a
fresh-handle counter. -/
structure World where
  st : ControllerState
  intervals : List Interval
  nextId : ℕ
deriving DecidableEq

/-- Observable effects of a handler: user-facing `Alert.alert` calls and
`saveTasks` persistence writes. -/
inductive Effect where
  | alert (title message : String)
  | persist (tasks : List Task)
deriving DecidableEq

/-- Title of the warning shown when a second timer start is rejected. -/
def warnTitle : String := "警告"

/-- Message of the warning shown when a second timer start is rejected. -/
def warnAlreadyRunning : String := "既に実行中のタスクがあります"

/-- Title of the completion notice. -/
def doneTitle : String := "完了"

/-- Suffix of the completion notice message. -/
def doneSuffix : String := "が完了しました！"

/-- Title of the validation error dialog. -/
def errTitle : String := "エラー"

/-- Message of the validation error dialog. -/
def validationMsg : String := "タスク名と予定時間を入力してください"

/-- Guard of `startTimer`: `activeTask && activeTask.id !== task.id`. -/
def activeBlocks (w : World) (task : Task) : Bool :=
  match w.st.activeTask with
  | some a => a.id != task.id
  | none => false

/-- The `updatedTask` built by `startTimer`: running, not paused, with
`remainingTime: task.remainingTime || task.realTime * 60`. -/
def startedTask (task : Task) : Task :=
  { task with
    isRunning := some true,
    isPaused := some false,
    remainingTime := some (jsOrInt task.remainingTime (task.realTime * 60)) }

/-- Embedding of `startTimer(task)`.  If another task is active, warn and
change nothing.  Otherwise set the started task as the active task, mirror
it into the task list, and register a fresh repeating interval whose
callback captures the pre-update `tasks` list.  No existing interval is
cancelled by this handler. -/
def startTimer (task : Task) (w : World) : World × List Effect :=
  if activeBlocks w task then
    (w, [Effect.alert warnTitle warnAlreadyRunning])
  else
    ({ st :=
        { w.st with
          activeTask := some (startedTask task),
          tasks := w.st.tasks.map fun t =>
            if t.id = task.id then startedTask task else t,
          timer := some w.nextId },
       intervals := w.intervals ++ [⟨w.nextId, w.st.tasks⟩],
       nextId := w.nextId + 1 },
     [])

/-- Body of the interval callback registered by `startTimer`, for the
registration `iv`.  It reads the active task from current state (functional
updater); when not paused it computes `(remainingTime || 0) - 1`; on `≤ 0`
it cancels its own interval, shows the completion notice, clears the timer
handle and the active task, and leaves the task list untouched; otherwise
it writes the decremented task into the active-task cell and into the
closure-captured `tasks` list. -/
def tickBody (iv : Interval) (w : World) : World × List Effect :=
  match w.st.activeTask with
  | none => (w, [])
  | some current =>
    if truthyOpt current.isPaused then (w, [])
    else
      if jsOrInt current.remainingTime 0 - 1 ≤ 0 then
        ({ w with
            st := { w.st with activeTask := none, timer := none },
            intervals := w.intervals.filter fun i => i.id != iv.id },
         [Effect.alert doneTitle (current.name ++ doneSuffix)])
      else
        ({ w with
            st := { w.st with
              activeTask :=
                some { current with
                  remainingTime := some (jsOrInt current.remainingTime 0 - 1) },
              tasks := iv.capturedTasks.map fun t =>
                if t.id = current.id then
                  { current with
                    remainingTime := some (jsOrInt current.remainingTime 0 - 1) }
                else t } },
         [])

/-- Firing of the interval with handle `iid`: a no-op unless that handle is
live, in which case its callback body runs. -/
def fireTick (iid : ℕ) (w : World) : World × List Effect :=
  match w.intervals.find? (fun i => i.id == iid) with
  | some iv => tickBody iv w
  | none => (w, [])

/-- Shared prefix of `pauseTimer` and `resetTimer`:
`if (timer) { clearInterval(timer); setTimer(null); }`. -/
def clearTick (w : World) : World :=
  match w.st.timer with
  | some tid =>
    { w with
        st := { w.st with timer := none },
        intervals := w.intervals.filter fun i => i.id != tid }
  | none => w

/-- The `updatedTask` built by `pauseTimer`: still running, now paused. -/
def pausedTask (a : Task) : Task :=
  { a with isRunning := some true, isPaused := some true }

/-- The `updatedTask` built by `resetTimer`: idle, unpaused, no remaining
time. -/
def resetTask (a : Task) : Task :=
  { a with isRunning := some false, isPaused := some false,
           remainingTime := none }

/-- Embedding of `pauseTimer()`: clear the live tick (if any), then mark
the active task (if any) as running-and-paused in both the active-task
cell and the task list.  No alert, no persistence write. -/
def pauseTimer (w : World) : World × List Effect :=
  match (clearTick w).st.activeTask with
  | some a =>
    ({ clearTick w with
        st := { (clearTick w).st with
          tasks := (clearTick w).st.tasks.map fun t =>
            if t.id = a.id then pausedTask a else t,
          activeTask := some (pausedTask a) } },
     [])
  | none => (clearTick w, [])

/-- Embedding of `resetTimer()`: clear the live tick (if any), then mark
the active task (if any) as idle with no remaining time in the task list
and clear the active-task cell.  No alert, no persistence write. -/
def resetTimer (w : World) : World × List Effect :=
  match (clearTick w).st.activeTask with
  | some a =>
    ({ clearTick w with
        st := { (clearTick w).st with
          tasks := (clearTick w).st.tasks.map fun t =>
            if t.id = a.id then resetTask a else t,
          activeTask := none } },
     [])
  | none => (clearTick w, [])

/-- Embedding of `handleDeleteTask(taskId)`: filter the task with that id
out of the list and persist the filtered list.  The active task, the timer
handle and the live intervals are not touched. -/
def handleDeleteTask (taskId : String) (w : World) : World × List Effect :=
  let updatedTasks := w.st.tasks.filter fun t => t.id != taskId
  ({ w with st := { w.st with tasks := updatedTasks } },
   [Effect.persist updatedTasks])

/-! ## Validation prefix of `handleAddTask` -/

/-- The whitespace characters stripped by `String.prototype.trim` that can
occur in the inputs of interest. -/
def jsIsSpace (c : Char) : Bool :=
  c == ' ' || c == '\t' || c == '\n' || c == '\r'

/-- Embedding of `String.prototype.trim`. -/
def jsTrim (s : String) : String :=
  String.mk (((s.data.dropWhile jsIsSpace).reverse.dropWhile jsIsSpace).reverse)

/-- Value of a leading run of decimal digits; `none` when there is no
digit, matching `parseInt` returning `NaN`. -/
def digitsVal (cs : List Char) : Option ℤ :=
  let ds := cs.takeWhile Char.isDigit
  if ds.isEmpty then none
  else some ((ds.foldl (fun acc c => acc * 10 + (c.toNat - 48)) 0 : ℕ) : ℤ)

/-- Embedding of `parseInt(s)` in base 10: skip leading whitespace, accept
an optional sign, read leading digits; `none` models `NaN`. -/
def jsParseInt (s : String) : Option ℤ :=
  match s.data.dropWhile jsIsSpace with
  | '-' :: rest => (digitsVal rest).map fun n => -n
  | '+' :: rest => digitsVal rest
  | rest => digitsVal rest

/-- What the synchronous prefix of `handleAddTask` (everything before the
`await` of the estimation call) does: either it shows the validation error
and returns — mutating no state cell and issuing no estimation call — or it
reaches the estimation call with the given name and `parseInt` result.  The
source checks only `!taskName.trim() || !estimatedTime.trim()`; no state
cell is written in either case before the `await`. -/
inductive AddTaskStep where
  | validationError (title message : String)
  | estimateCall (taskName : String) (estimatedMinutes : Option ℤ)
deriving DecidableEq

/-- Embedding of the validation prefix of `handleAddTask()`. -/
def handleAddTaskPhase1 (s : ControllerState) : AddTaskStep :=
  if jsTrim s.taskName = "" ∨ jsTrim s.estimatedTime = "" then
    .validationError errTitle validationMsg
  else
    .estimateCall s.taskName (jsParseInt s.estimatedTime)

/-! ## Concrete fixtures for witnesses and counterexamples -/

/-- A freshly created task: `realTime = 5` minutes, never started. -/
def taskA : Task :=
  { id := "1", name := demoName, estimatedTime := 5, realTime := 5 }

/-- A second, distinct task. -/
def taskB : Task :=
  { id := "2", name := demoText, estimatedTime := 3, realTime := 4 }

/-- `taskA` as `startTimer` makes it: running with 300 seconds left. -/
def runningA : Task :=
  { taskA with isRunning := some true, isPaused := some false,
               remainingTime := some 300 }

/-- Initial world: both tasks loaded, nothing running. -/
def world0 : World :=
  { st := { taskName := "", estimatedTime := "", tasks := [taskA, taskB],
            editingTask := none, activeTask := none, timer := none },
    intervals := [], nextId := 0 }

/-- World in which `taskA` is running with a live tick. -/
def worldRunning : World :=
  { st := { taskName := "", estimatedTime := "", tasks := [runningA, taskB],
            editingTask := none, activeTask := some runningA, timer := some 0 },
    intervals := [⟨0, [runningA, taskB]⟩], nextId := 1 }

/-- Fire the interval with handle `iid` the given number of times. -/
def fireTicks (iid : ℕ) : ℕ → World → World
  | 0, w => w
  | n + 1, w => fireTicks iid n (fireTick iid w).1

/-- World of the resume test: start `taskA` (300 seconds), let the tick
fire 10 times (290 seconds), then pause. -/
def afterPause : World :=
  (pauseTimer (fireTicks 0 10 (startTimer taskA world0).1)).1

/-- The list entry the resume button passes back to `startTimer`. -/
def resumeEntry : Task := afterPause.st.tasks.headD taskA

/-- A task one second from completion, running. -/
def tickTask : Task :=
  { id := "1", name := demoName, estimatedTime := 1, realTime := 1,
    isRunning := some true, isPaused := some false, remainingTime := some 1 }

/-- World in which `tickTask` is one tick from completion. -/
def tickWorld : World :=
  { st := { taskName := "", estimatedTime := "", tasks := [tickTask],
            editingTask := none, activeTask := some tickTask, timer := some 0 },
    intervals := [⟨0, [tickTask]⟩], nextId := 1 }

/-- A non-empty, non-numeric estimated-time text. -/
def nonNumericText : String := "abc"

/-- Input state with a non-empty task name and a non-numeric estimate. -/
def nonNumericState : ControllerState :=
  { taskName := demoName, estimatedTime := nonNumericText, tasks := [],
    editingTask := none, activeTask := none, timer := none }

/-- Input state with an empty task name. -/
def emptyNameState : ControllerState :=
  { taskName := "", estimatedTime := nonNumericText, tasks := [],
    editingTask := none, activeTask := none, timer := none }

/-! ## Helper lemmas -/

/-- `x || d` on a present field whose default is `0` is the field value. -/
theorem jsOrInt_some_zero (n : ℤ) : jsOrInt (some n) 0 = n := by
  show (if n = 0 then 0 else n) = n
  split_ifs with h
  · omega
  · rfl

/-- `clearTick` never changes the active task. -/
theorem clearTick_activeTask (w : World) :
    (clearTick w).st.activeTask = w.st.activeTask := by
  unfold clearTick
  cases h : w.st.timer <;> simp [h]

/-- `clearTick` never changes the task list. -/
theorem clearTick_tasks (w : World) :
    (clearTick w).st.tasks = w.st.tasks := by
  unfold clearTick
  cases h : w.st.timer <;> simp [h]

/-- After `clearTick` the timer handle is empty. -/
theorem clearTick_timer (w : World) : (clearTick w).st.timer = none := by
  unfold clearTick
  cases h : w.st.timer <;> simp [h]

/-- With no timer handle, `clearTick` is the identity: stopping a tick
when no tick is active is a no-op. -/
theorem clearTick_of_timer_none (w : World) (h : w.st.timer = none) :
    clearTick w = w := by
  unfold clearTick
  rw [h]

/-- `clearTick` only ever removes live intervals. -/
theorem clearTick_intervals_length (w : World) :
    (clearTick w).intervals.length ≤ w.intervals.length := by
  unfold clearTick
  cases h : w.st.timer with
  | none => simp
  | some tid => simpa using List.length_filter_le _ _

/-- Replacing the entries with id `i` by `u` twice is the same as doing it
once. -/
theorem map_replace_idem (l : List Task) (i : String) (u : Task) :
    ((l.map fun t => if t.id = i then u else t).map
        fun t => if t.id = i then u else t)
      = l.map fun t => if t.id = i then u else t := by
  induction l with
  | nil => rfl
  | cons a tl ih =>
    simp only [List.map_cons, ih]
    by_cases h : a.id = i
    · simp [h]
    · simp [h]

/-- Pausing an already-paused task changes nothing. -/
theorem pausedTask_idem (a : Task) : pausedTask (pausedTask a) = pausedTask a := rfl

/-- `pausedTask` keeps the task id. -/
theorem pausedTask_id (a : Task) : (pausedTask a).id = a.id := rfl

/-- After a pause the timer handle is empty. -/
theorem pauseTimer_timer_none (w : World) :
    (pauseTimer w).1.st.timer = none := by
  unfold pauseTimer
  cases h : (clearTick w).st.activeTask <;> simp [h, clearTick_timer]

/-! ## Claim theorems for the controller -/

/-- C3: whenever a task `A` is active, `startTimer(B)` for a task `B` with
a different id emits the user-facing warning and returns the world
unchanged: `A`'s timer state, `B`'s list entry, the active task, the timer
handle and the live intervals are all exactly as before. -/
theorem startTimer_rejects_second_active (A B : Task) (w : World)
    (hA : w.st.activeTask = some A) (hne : A.id ≠ B.id) :
    startTimer B w = (w, [Effect.alert warnTitle warnAlreadyRunning]) := by
  have hb : activeBlocks w B = true := by
    unfold activeBlocks
    rw [hA]
    exact bne_iff_ne.mpr hne
  unfold startTimer
  rw [if_pos hb]

/-- Witness for C3: starting `taskB` while `taskA` runs is rejected. -/
theorem startTimer_rejects_second_active_witness :
    startTimer taskB worldRunning
      = (worldRunning, [Effect.alert warnTitle warnAlreadyRunning]) :=
  startTimer_rejects_second_active runningA taskB worldRunning rfl (by decide)

/-- C8 counterexample: with a non-empty task name and the non-numeric
estimated-time text `"abc"`, the handler does not report a validation
error; it reaches the estimation call with `parseInt("abc") = NaN`,
refuting the claim that a non-numeric estimated time is rejected before
any estimation call. -/
theorem handleAddTask_non_numeric_cex :
    handleAddTaskPhase1 nonNumericState
        = AddTaskStep.estimateCall demoName none
    ∧ handleAddTaskPhase1 nonNumericState
        ≠ AddTaskStep.validationError errTitle validationMsg := by
  constructor
  · decide
  · decide

/-- C8 amended: the handler validates only that both fields are non-empty
after trimming — on an empty field it reports the validation error and
aborts before the estimation call with no state mutated; on non-empty
fields it always proceeds to the estimation call with the `parseInt`
result, even when that result is `NaN` because the text is non-numeric. -/
theorem handleAddTask_validation_amended (s : ControllerState) :
    (jsTrim s.taskName = "" ∨ jsTrim s.estimatedTime = "" →
      handleAddTaskPhase1 s = AddTaskStep.validationError errTitle validationMsg)
    ∧ (jsTrim s.taskName ≠ "" → jsTrim s.estimatedTime ≠ "" →
      handleAddTaskPhase1 s
        = AddTaskStep.estimateCall s.taskName (jsParseInt s.estimatedTime)) := by
  unfold handleAddTaskPhase1
  constructor
  · intro h
    rw [if_pos h]
  · intro h1 h2
    rw [if_neg (not_or.mpr ⟨h1, h2⟩)]

/-- Witness for the amended C8 at an empty task name. -/
theorem handleAddTask_validation_amended_witness :
    handleAddTaskPhase1 emptyNameState
      = AddTaskStep.validationError errTitle validationMsg :=
  (handleAddTask_validation_amended emptyNameState).1 (Or.inl (by decide))

/-- C10: `handleDeleteTask(id)` removes exactly the tasks whose id equals
`id`, preserves the order and fields of every other task (the result is a
sublist of the original), always persists the filtered list, and leaves
the active task, the timer handle, the live intervals, and the editing
reference untouched — so deleting the active task leaves it active with
its tick still alive. -/
theorem handleDeleteTask_frame (taskId : String) (w : World) :
    (handleDeleteTask taskId w).1.st.tasks
        = w.st.tasks.filter (fun t => t.id != taskId)
    ∧ (∀ t ∈ (handleDeleteTask taskId w).1.st.tasks, t.id ≠ taskId)
    ∧ (handleDeleteTask taskId w).1.st.tasks.Sublist w.st.tasks
    ∧ (handleDeleteTask taskId w).1.st.activeTask = w.st.activeTask
    ∧ (handleDeleteTask taskId w).1.st.timer = w.st.timer
    ∧ (handleDeleteTask taskId w).1.intervals = w.intervals
    ∧ (handleDeleteTask taskId w).1.st.editingTask = w.st.editingTask
    ∧ (handleDeleteTask taskId w).2
        = [Effect.persist (w.st.tasks.filter (fun t => t.id != taskId))] := by
  refine ⟨rfl, ?_, ?_, rfl, rfl, rfl, rfl, rfl⟩
  · intro t ht
    have hp := List.of_mem_filter ht
    exact bne_iff_ne.mp hp
  · exact List.filter_sublist _

/-- C7 counterexample: in a world where the active task is running with a
live tick, calling `startTimer` on that same task registers a second
repeating interval without cancelling the first, so two ticking timers are
alive at once — refuting the claim that every tick-creating `startTimer`
first cancels any previously alive tick. -/
theorem startTimer_duplicate_tick_cex :
    worldRunning.intervals.length = 1
    ∧ (startTimer runningA worldRunning).1.intervals.length = 2
    ∧ (startTimer runningA worldRunning).1.intervals.head?
        = some ⟨0, [runningA, taskB]⟩ := by
  refine ⟨rfl, ?_, ?_⟩
  · decide
  · decide

/-- C7 amended: `startTimer` itself never cancels a previous tick handle;
instead, pause, reset and the tick callback preserve "at most one live
tick", `startTimer` invoked with no live tick (the only way the UI reaches
it: fresh start, or resume after a pause already cleared the tick) creates
exactly at most one, and a rejected `startTimer` changes nothing — while
`startTimer` on the already-running active task does leak a duplicate
tick, as the counterexample shows. -/
theorem single_tick_invariant_amended :
    (∀ w : World, w.intervals.length ≤ 1 →
      (pauseTimer w).1.intervals.length ≤ 1)
    ∧ (∀ w : World, w.intervals.length ≤ 1 →
      (resetTimer w).1.intervals.length ≤ 1)
    ∧ (∀ (iid : ℕ) (w : World), w.intervals.length ≤ 1 →
      (fireTick iid w).1.intervals.length ≤ 1)
    ∧ (∀ (t : Task) (w : World), w.intervals = [] →
      (startTimer t w).1.intervals.length ≤ 1)
    ∧ (∀ (t : Task) (w : World), activeBlocks w t = true →
      (startTimer t w).1.intervals = w.intervals) := by
  refine ⟨?_, ?_, ?_, ?_, ?_⟩
  · intro w h
    have hlen := clearTick_intervals_length w
    unfold pauseTimer
    cases hact : (clearTick w).st.activeTask <;> simp [hact] <;> omega
  · intro w h
    have hlen := clearTick_intervals_length w
    unfold resetTimer
    cases hact : (clearTick w).st.activeTask <;> simp [hact] <;> omega
  · intro iid w h
    unfold fireTick
    cases hfind : w.intervals.find? (fun i => i.id == iid) with
    | none => simpa using h
    | some iv =>
      unfold tickBody
      cases hact : w.st.activeTask with
      | none => simpa using h
      | some cur =>
        by_cases hp : truthyOpt cur.isPaused
        · simpa [hp] using h
        · by_cases hle : jsOrInt cur.remainingTime 0 - 1 ≤ 0
          · simp [hp, hle]
            have := List.length_filter_le (fun i => i.id != iv.id) w.intervals
            omega
          · simpa [hp, hle] using h
  · intro t w h
    unfold startTimer
    by_cases hb : activeBlocks w t
    · simp [hb, h]
    · simp [hb, h]
  · intro t w h
    unfold startTimer
    rw [if_pos h]

/-- Witness for the amended C7: a fresh start from the initial world keeps
at most one live tick. -/
theorem single_tick_invariant_amended_witness :
    (startTimer taskA world0).1.intervals.length ≤ 1 :=
  single_tick_invariant_amended.2.2.2.1 taskA world0 rfl

/-- C4: whenever `startTimer` proceeds (no distinct task is active), the
new active task carries `remainingTime = r` when the task already stored a
(non-zero, as in every reachable paused state) remaining time `r` — the
resume contract — and `realMinutes * 60` only when none was stored; and in
the concrete run — start `taskA` (`realTime = 5` ⇒ 300 seconds), fire the
tick 10 times, pause, start the resulting list entry again — the countdown
resumes at 290 seconds, not 300. -/
theorem startTimer_resume_contract :
    (∀ (t : Task) (w : World), activeBlocks w t = false →
      (startTimer t w).1.st.activeTask = some (startedTask t)
      ∧ (∀ r : ℤ, t.remainingTime = some r → r ≠ 0 →
          (startedTask t).remainingTime = some r)
      ∧ (t.remainingTime = none →
          (startedTask t).remainingTime = some (t.realTime * 60)))
    ∧ resumeEntry.remainingTime = some 290
    ∧ (startTimer resumeEntry afterPause).1.st.activeTask
        = some (startedTask resumeEntry)
    ∧ (startedTask resumeEntry).remainingTime = some 290 := by
  refine ⟨?_, ?_, ?_, ?_⟩
  · intro t w h
    refine ⟨?_, ?_, ?_⟩
    · unfold startTimer
      rw [if_neg (by simp [h])]
    · intro r hr hr0
      simp [startedTask, jsOrInt, hr, hr0]
    · intro hr
      simp [startedTask, jsOrInt, hr]
  · decide
  · decide
  · decide

/-- Witness for C4: the concrete resume instantiated through the general
part of the theorem. -/
theorem startTimer_resume_contract_witness :
    (startTimer resumeEntry afterPause).1.st.activeTask
        = some (startedTask resumeEntry)
    ∧ (startedTask resumeEntry).remainingTime = some 290 := by
  have h := startTimer_resume_contract.1 resumeEntry afterPause (by decide)
  exact ⟨h.1, h.2.1 290 (by decide) (by decide)⟩

/-- C5: a tick fired from a live interval while the active task is present
and not paused computes `remainingSeconds - 1`; when the result is `≤ 0`
it clears the active task and the timer handle, removes its own interval
from the live set, shows the completion notice, and leaves the task list
(with its now-stale timer fields) untouched; otherwise it writes the
decremented value into the active task and into every matching entry of
the resulting task list, with no other change; and no tick ever issues a
persistence write. -/
theorem fireTick_countdown_spec :
    (∀ (w : World) (iid : ℕ) (iv : Interval) (cur : Task) (n : ℤ),
      w.intervals.find? (fun i => i.id == iid) = some iv →
      w.st.activeTask = some cur →
      truthyOpt cur.isPaused = false →
      cur.remainingTime = some n →
      ((n - 1 ≤ 0 →
        (fireTick iid w).1.st.activeTask = none
        ∧ (fireTick iid w).1.st.timer = none
        ∧ (fireTick iid w).1.st.tasks = w.st.tasks
        ∧ (fireTick iid w).1.intervals
            = w.intervals.filter (fun i => i.id != iv.id)
        ∧ (fireTick iid w).2
            = [Effect.alert doneTitle (cur.name ++ doneSuffix)])
      ∧ (0 < n - 1 →
        (fireTick iid w).1.st.activeTask
            = some { cur with remainingTime := some (n - 1) }
        ∧ (∀ t ∈ (fireTick iid w).1.st.tasks,
            t.id = cur.id → t = { cur with remainingTime := some (n - 1) })
        ∧ (fireTick iid w).1.st.timer = w.st.timer
        ∧ (fireTick iid w).1.intervals = w.intervals
        ∧ (fireTick iid w).2 = [])))
    ∧ (∀ (iid : ℕ) (w : World) (ts : List Task),
        Effect.persist ts ∉ (fireTick iid w).2) := by
  constructor
  · intro w iid iv cur n hfind hact hp hrem
    have hfire : fireTick iid w = tickBody iv w := by
      unfold fireTick
      rw [hfind]
    rw [hfire]
    unfold tickBody
    rw [hact]
    simp only [hp, Bool.false_eq_true, if_false]
    rw [hrem, jsOrInt_some_zero]
    constructor
    · intro hle
      rw [if_pos hle]
      exact ⟨rfl, rfl, rfl, rfl, rfl⟩
    · intro hlt
      rw [if_neg (by omega)]
      refine ⟨rfl, ?_, rfl, rfl, rfl⟩
      intro t ht hid
      rcases List.mem_map.1 ht with ⟨t0, ht0, rfl⟩
      by_cases h0 : t0.id = cur.id
      · rw [if_pos h0]
      · rw [if_neg h0] at hid
        exact absurd hid h0
  · intro iid w ts
    unfold fireTick
    cases hfind : w.intervals.find? (fun i => i.id == iid) with
    | none => simp
    | some iv =>
      unfold tickBody
      cases hact : w.st.activeTask with
      | none => simp
      | some cur =>
        by_cases hp : truthyOpt cur.isPaused
        · simp [hp]
        · by_cases hle : jsOrInt cur.remainingTime 0 - 1 ≤ 0
          · simp [hp, hle]
          · simp [hp, hle]

/-- Witness for C5: the one-second-left task completes on its tick. -/
theorem fireTick_countdown_spec_witness :
    (fireTick 0 tickWorld).1.st.activeTask = none
    ∧ (fireTick 0 tickWorld).2
        = [Effect.alert doneTitle (demoName ++ doneSuffix)] := by
  have h := (fireTick_countdown_spec.1 tickWorld 0 ⟨0, [tickTask]⟩ tickTask 1
    (by decide) rfl rfl rfl).1 (by decide)
  exact ⟨h.1, h.2.2.2.2⟩

/-- With no timer handle and no active task, `pauseTimer` is the identity
with no effects. -/
theorem pauseTimer_of_inactive (w : World) (ht : w.st.timer = none)
    (hact : w.st.activeTask = none) : pauseTimer w = (w, []) := by
  unfold pauseTimer
  rw [clearTick_of_timer_none w ht, hact]

/-- With no timer handle, an active task already marked paused whose list
replacement is stable, `pauseTimer` is the identity with no effects. -/
theorem pauseTimer_of_paused (w : World) (a : Task)
    (ht : w.st.timer = none)
    (hact : w.st.activeTask = some a)
    (ha : pausedTask a = a)
    (htasks : w.st.tasks.map (fun t => if t.id = a.id then pausedTask a else t)
        = w.st.tasks) :
    pauseTimer w = (w, []) := by
  unfold pauseTimer
  rw [clearTick_of_timer_none w ht, hact]
  show (({ w with st := { w.st with
      tasks := w.st.tasks.map fun t => if t.id = a.id then pausedTask a else t,
      activeTask := some (pausedTask a) } } : World), ([] : List Effect))
    = (w, [])
  rw [htasks, ha, ← hact]

/-- C6: `pauseTimer` is idempotent — the second of two consecutive pauses
returns the state of the first unchanged and produces no effects;
`resetTimer` in a state with no active task and no live tick is the
identity with no effects; and clearing the tick when no tick handle is set
is a no-op rather than an error. -/
theorem stop_operations_idempotent :
    (∀ w : World, pauseTimer (pauseTimer w).1 = ((pauseTimer w).1, []))
    ∧ (∀ w : World, w.st.activeTask = none → w.st.timer = none →
        resetTimer w = (w, []))
    ∧ (∀ w : World, w.st.timer = none → clearTick w = w) := by
  refine ⟨?_, ?_, ?_⟩
  · intro w
    cases hact : (clearTick w).st.activeTask with
    | none =>
      have h1 : pauseTimer w = (clearTick w, []) := by
        unfold pauseTimer
        rw [hact]
      rw [h1]
      exact pauseTimer_of_inactive _ (clearTick_timer w) hact
    | some a =>
      have h1 : pauseTimer w =
          ({ clearTick w with
              st := { (clearTick w).st with
                tasks := (clearTick w).st.tasks.map fun t =>
                  if t.id = a.id then pausedTask a else t,
                activeTask := some (pausedTask a) } }, []) := by
        unfold pauseTimer
        rw [hact]
      rw [h1]
      apply pauseTimer_of_paused _ (pausedTask a)
      · exact clearTick_timer w
      · rfl
      · exact pausedTask_idem a
      · show ((clearTick w).st.tasks.map fun t =>
            if t.id = a.id then pausedTask a else t).map (fun t =>
            if t.id = (pausedTask a).id then pausedTask (pausedTask a) else t)
          = (clearTick w).st.tasks.map fun t =>
            if t.id = a.id then pausedTask a else t
        rw [pausedTask_id, pausedTask_idem]
        exact map_replace_idem _ _ _
  · intro w hact ht
    unfold resetTimer
    rw [clearTick_of_timer_none w ht, hact]
  · intro w ht
    exact clearTick_of_timer_none w ht

/-- Witness for C6: double pause and no-active reset on concrete worlds. -/
theorem stop_operations_idempotent_witness :
    pauseTimer (pauseTimer worldRunning).1 = ((pauseTimer worldRunning).1, [])
    ∧ resetTimer world0 = (world0, []) :=
  ⟨stop_operations_idempotent.1 worldRunning,
   stop_operations_idempotent.2.1 world0 rfl rfl⟩

end RTT
